import Mathlib

/-!
A shallow embedding of the geospatial addressing core of
`earthacrosstime.py` — coordinate types, the Time Machine flavor of the
Web Mercator projection, area-correct random point sampling, the zoom
level resolver, and the tile indexer — together with theorems checking
the natural-language specification against it.

Python floats are modelled by real numbers (`ℝ`); `random.random()`
outcomes are passed in explicitly as parameters in `[0, 1)`; the
rejection-sampling loop of `GeoShape.random_geopoint` is modelled
abstractly over a containment predicate and a stream of draws, since the
shapefile/shapely containment test lives in external libraries; a failing
`assert` / `raise` is modelled by `Except`.
-/

namespace EarthAcrossTime

open Real

/-- `math.radians`: degrees to radians. -/
noncomputable def radians (x : ℝ) : ℝ := x * π / 180

/-- `math.degrees`: radians to degrees. -/
noncomputable def degrees (x : ℝ) : ℝ := x * 180 / π

/-- A latitude-longitude pair (class `GeoPoint`, fields only; the range
assertion of `__init__` is modelled separately by `GeoPoint.init`). -/
structure GeoPoint where
  lat : ℝ
  lon : ℝ

/-- A pixel coordinate pair (class `PixPoint`). -/
structure PixPoint where
  x : ℝ
  y : ℝ

/-- A zoom level (class `ZoomLevel`). -/
structure ZoomLevel where
  index : ℕ
  lat : ℝ
  meters_per_pixel : ℝ

/-- `GeoPoint.__init__`: `assert -90 <= lat <= 90 and -180 <= lon <= 180`,
then store `lat` and `lon` unchanged. The failing assert (the spec's
`InvalidCoordinate`) is modelled as `Except.error`. -/
noncomputable def GeoPoint.init (lat lon : ℝ) : Except Unit GeoPoint :=
  if -90 ≤ lat ∧ lat ≤ 90 ∧ -180 ≤ lon ∧ lon ≤ 180 then
    Except.ok ⟨lat, lon⟩
  else
    Except.error ()

/-- Python's built-in `round` on floats: round half to even. -/
noncomputable def pyRound (x : ℝ) : ℤ :=
  if Int.fract x = 1 / 2 then
    (if ⌊x⌋ % 2 = 0 then ⌊x⌋ else ⌊x⌋ + 1)
  else
    round x

/-- The components of one coordinate of `GeoPoint.fancy`'s output: the
degree/minute/second numbers and the hemisphere suffix that the Python
code interpolates into the string
`f"{coord_deg}°{coord_min}'{coord_sec}\"{coord_dir}"`. -/
structure FancyCoord where
  coord_deg : ℤ
  coord_min : ℤ
  coord_sec : ℝ
  coord_dir : String

/-- The helper `fancy_coord` inside `GeoPoint.fancy`, with the string
interpolation left as the structured components it would receive. -/
noncomputable def fancy_coord (coord : ℝ) (pos neg : String) : FancyCoord :=
  let coord_dir := if coord > 0 then pos else neg
  let coord_tmp := |coord|
  let coord_deg := ⌊coord_tmp⌋
  let coord_tmp2 := (coord_tmp - ↑⌊coord_tmp⌋) * 60
  let coord_min := ⌊coord_tmp2⌋
  let coord_sec := (pyRound ((coord_tmp2 - ↑⌊coord_tmp2⌋) * 600) : ℝ) / 10
  ⟨coord_deg, coord_min, coord_sec, coord_dir⟩

/-- `GeoPoint.fancy`: latitude formatted with "N"/"S", longitude with
"E"/"W", returned as structured components. -/
noncomputable def GeoPoint.fancy (p : GeoPoint) : FancyCoord × FancyCoord :=
  (fancy_coord p.lat "N" "S", fancy_coord p.lon "E" "W")

/-- Class `MercatorProjection`: bounds and raster size. -/
structure MercatorProjection where
  west : ℝ
  north : ℝ
  east : ℝ
  south : ℝ
  width : ℝ
  height : ℝ

/-- `MercatorProjection.__raw_project_lat`. -/
noncomputable def raw_project_lat (lat : ℝ) : ℝ :=
  Real.log ((1 + Real.sin (lat * π / 180)) / Real.cos (lat * π / 180))

/-- `MercatorProjection.__raw_unproject_lat`. -/
noncomputable def raw_unproject_lat (y : ℝ) : ℝ :=
  (2 * Real.arctan (Real.exp y) - π / 2) * 180 / π

/-- `MercatorProjection.__interpolate`. -/
noncomputable def interpolate (x from_low from_high to_low to_high : ℝ) : ℝ :=
  (x - from_low) / (from_high - from_low) * (to_high - to_low) + to_low

/-- `MercatorProjection.geopoint_to_pixpoint` (the spec's `forward`). -/
noncomputable def MercatorProjection.geopoint_to_pixpoint
    (m : MercatorProjection) (geopoint : GeoPoint) : PixPoint :=
  ⟨interpolate geopoint.lon m.west m.east 0 m.width,
   interpolate (raw_project_lat geopoint.lat) (raw_project_lat m.north)
     (raw_project_lat m.south) 0 m.height⟩

/-- `MercatorProjection.pixpoint_to_geopoint` (the spec's `inverse`),
as the bare coordinate pair the interpolations produce. The Python code
builds the result with `GeoPoint(lat, lon)`, whose constructor asserts
the ranges; `pixpoint_to_geopoint_checked` below models that construction
faithfully and returns this pair exactly when the assert passes. For the
round-trip claim the recovered values equal the in-range inputs, so the
two models agree there. -/
noncomputable def MercatorProjection.pixpoint_to_geopoint
    (m : MercatorProjection) (pixpoint : PixPoint) : GeoPoint :=
  ⟨raw_unproject_lat (interpolate pixpoint.y 0 m.height
     (raw_project_lat m.north) (raw_project_lat m.south)),
   interpolate pixpoint.x 0 m.width m.west m.east⟩

/-- `MercatorProjection.pixpoint_to_geopoint` including the
`GeoPoint(lat, lon)` constructor call of the source's final line, whose
range assert can fail: the result is `GeoPoint.init` applied to the two
interpolated coordinates. -/
noncomputable def MercatorProjection.pixpoint_to_geopoint_checked
    (m : MercatorProjection) (pixpoint : PixPoint) : Except Unit GeoPoint :=
  GeoPoint.init
    (raw_unproject_lat (interpolate pixpoint.y 0 m.height
      (raw_project_lat m.north) (raw_project_lat m.south)))
    (interpolate pixpoint.x 0 m.width m.west m.east)

/-- The meters-per-pixel value `GeoPoint.determine_level` computes in its
loop body at a given level index: with `c1 = radians(6371)` and
`scale = 2 ** (level - (nlevels - 1))`,
`c1 * (degrees_per_pixel * cos(radians(lat))) * 1000` where
`degrees_per_pixel` is the absolute longitude difference to the
inverse-projected point `1/scale` to the right. -/
noncomputable def metersPerPixelAt (p : GeoPoint) (proj : MercatorProjection)
    (nlevels : ℕ) (level : ℕ) : ℝ :=
  let c1 := radians 6371
  let point := proj.geopoint_to_pixpoint p
  let scale : ℝ := (2 : ℝ) ^ ((level : ℤ) - ((nlevels : ℤ) - 1))
  let one_pixel_off := proj.pixpoint_to_geopoint ⟨point.x + 1 / scale, point.y⟩
  let degrees_per_pixel := |p.lon - one_pixel_off.lon|
  let v1 := degrees_per_pixel * Real.cos (radians p.lat)
  c1 * v1 * 1000

/-- The loop of `GeoPoint.determine_level`, by the level index it is
currently examining: return `ZoomLevel(level, lat, meters_per_pixel)` if
`meters_per_pixel > max_meters_per_pixel or level == 0`, else step to
`level - 1`. -/
noncomputable def determineLevelAux (p : GeoPoint) (proj : MercatorProjection)
    (nlevels : ℕ) (max_meters_per_pixel : ℝ) : ℕ → ZoomLevel
  | 0 => ⟨0, p.lat, metersPerPixelAt p proj nlevels 0⟩
  | l + 1 =>
    if metersPerPixelAt p proj nlevels (l + 1) > max_meters_per_pixel then
      ⟨l + 1, p.lat, metersPerPixelAt p proj nlevels (l + 1)⟩
    else
      determineLevelAux p proj nlevels max_meters_per_pixel l

/-- `GeoPoint.determine_level`: scan level indices from `nlevels - 1`
down to 0 (`for level in reversed(range(nlevels))`). For `nlevels = 0`
the Python loop body never runs and the function returns `None`; every
claim about this function assumes `nlevels ≥ 1`, where the model below
coincides with the code. -/
noncomputable def GeoPoint.determine_level (p : GeoPoint)
    (proj : MercatorProjection) (nlevels : ℕ)
    (max_meters_per_pixel : ℝ) : ZoomLevel :=
  determineLevelAux p proj nlevels max_meters_per_pixel (nlevels - 1)

/-- The meters-per-pixel computation of the loop body of
`GeoPoint.determine_level`, with the `GeoPoint(lat, lon)` constructor
assert inside `pixpoint_to_geopoint` modelled faithfully: when the
inverse-projected offset point is out of range the `AssertionError`
propagates as `Except.error`. On success the value coincides with
`metersPerPixelAt`. -/
noncomputable def metersPerPixelAtE (p : GeoPoint) (proj : MercatorProjection)
    (nlevels : ℕ) (level : ℕ) : Except Unit ℝ :=
  let c1 := radians 6371
  let point := proj.geopoint_to_pixpoint p
  let scale : ℝ := (2 : ℝ) ^ ((level : ℤ) - ((nlevels : ℤ) - 1))
  match proj.pixpoint_to_geopoint_checked ⟨point.x + 1 / scale, point.y⟩ with
  | Except.error e => Except.error e
  | Except.ok one_pixel_off =>
    Except.ok (c1 * (|p.lon - one_pixel_off.lon| *
      Real.cos (radians p.lat)) * 1000)

/-- The loop of `GeoPoint.determine_level` with the constructor assert
modelled: an `AssertionError` raised while computing the current level's
meters-per-pixel aborts the whole call. -/
noncomputable def determineLevelAuxE (p : GeoPoint) (proj : MercatorProjection)
    (nlevels : ℕ) (max_meters_per_pixel : ℝ) : ℕ → Except Unit ZoomLevel
  | 0 =>
    match metersPerPixelAtE p proj nlevels 0 with
    | Except.error e => Except.error e
    | Except.ok mpp => Except.ok ⟨0, p.lat, mpp⟩
  | l + 1 =>
    match metersPerPixelAtE p proj nlevels (l + 1) with
    | Except.error e => Except.error e
    | Except.ok mpp =>
      if mpp > max_meters_per_pixel then Except.ok ⟨l + 1, p.lat, mpp⟩
      else determineLevelAuxE p proj nlevels max_meters_per_pixel l

/-- `GeoPoint.determine_level` with the `GeoPoint` constructor assert of
`pixpoint_to_geopoint` modelled faithfully: the scan from `nlevels - 1`
down to 0 either returns a `ZoomLevel` or propagates the
`AssertionError` raised when some scanned level's inverse-projected
offset point has an out-of-range coordinate. `determine_level` above is
the same loop under the assumption that every assert passes; the claims
conditioned on a returned value (monotonicity, the index-0 bound) are
stated on it. -/
noncomputable def GeoPoint.determine_levelE (p : GeoPoint)
    (proj : MercatorProjection) (nlevels : ℕ)
    (max_meters_per_pixel : ℝ) : Except Unit ZoomLevel :=
  determineLevelAuxE p proj nlevels max_meters_per_pixel (nlevels - 1)

/-- A rectangle between a southwestern and a northeastern corner
(class `GeoRect`). -/
structure GeoRect where
  sw : GeoPoint
  ne : GeoPoint

/-- `GeoPoint.random`, with the two `random.random()` outcomes passed in
as `u1` (used for latitude) and `u2` (used for longitude), each in
`[0, 1)`. -/
noncomputable def GeoPoint.random (georect : GeoRect) (u1 u2 : ℝ) : GeoPoint :=
  let north := radians georect.ne.lat
  let south := radians georect.sw.lat
  let lat := degrees (Real.arcsin
    (u1 * (Real.sin north - Real.sin south) + Real.sin south))
  let west := georect.sw.lon
  let east := georect.ne.lon
  let width0 := east - west
  let width := if width0 < 0 then width0 + 360 else width0
  let lon0 := west + width * u2
  let lon :=
    if lon0 > 180 then lon0 - 360
    else if lon0 < -180 then lon0 + 360
    else lon0
  ⟨lat, lon⟩

/-- Per-level grid size entry of `metadata.level_info` (`{cols, rows}`). -/
structure LevelInfo where
  cols : ℤ
  rows : ℤ

/-- The slice of the `Metadata` record that `Tile.from_pixpoint_and_level`
reads. -/
structure Metadata where
  nlevels : ℕ
  tile_width : ℝ
  tile_height : ℝ
  video_width : ℝ
  video_height : ℝ
  level_info : List LevelInfo

/-- A tile coordinate (class `Tile`). -/
structure Tile where
  level : ZoomLevel
  col : ℤ
  row : ℤ

/-- `Tile.from_pixpoint_and_level`. The Python list access
`metadata.level_info[level.index]` is modelled with `List.getD`; the
claims about this function only concern indices below
`metadata.level_info.length`, where the two agree. -/
noncomputable def Tile.from_pixpoint_and_level (pixpoint : PixPoint)
    (level : ZoomLevel) (metadata : Metadata) : Tile :=
  let level_scale : ℝ := (2 : ℝ) ^ ((metadata.nlevels : ℤ) - 1 - (level.index : ℤ))
  let info := metadata.level_info.getD level.index ⟨0, 0⟩
  let col0 := pyRound ((pixpoint.x - metadata.video_width * level_scale * 0.5) /
    (metadata.tile_width * level_scale))
  let col1 := max col0 0
  let col2 := min col1 (info.cols - 1)
  let row0 := pyRound ((pixpoint.y - metadata.video_height * level_scale * 0.5) /
    (metadata.tile_height * level_scale))
  let row1 := max row0 0
  let row2 := min row1 (info.rows - 1)
  ⟨level, col2, row2⟩

/-- The rejection-sampling loop of `GeoShape.random_geopoint`, abstracted
over the containment test and the stream of drawn points: `draws k` is
the `(k+1)`-th value `GeoPoint.random` returns. `rgAux fuel k` examines
`draws k, draws (k+1), …` while fuel lasts and errors when it runs out.
In the Python code the counter `i` starts at 0, is incremented on each
rejection, and the `raise` fires when `i > 250`, i.e. on the 251st
rejection — so exactly 251 draws are examined before failure. -/
def rgAux {G : Type} (contains : G → Bool) (draws : ℕ → G) :
    ℕ → ℕ → Except Unit G
  | 0, _ => Except.error ()
  | fuel + 1, k =>
    if contains (draws k) then Except.ok (draws k)
    else rgAux contains draws fuel (k + 1)

/-- `GeoShape.random_geopoint`: draw, then retry while the point is not
contained, raising (the spec's `SamplingExhausted`) once the rejection
counter exceeds 250 — after 251 examined-and-rejected draws. -/
def GeoShape.random_geopoint {G : Type} (contains : G → Bool)
    (draws : ℕ → G) : Except Unit G :=
  rgAux contains draws 251 0

/-! ## Theorems -/

/-- C7: `GeoPoint` construction fails (with the spec's `InvalidCoordinate`)
exactly when `lat ∉ [-90, 90]` or `lon ∉ [-180, 180]`, the failure being
the constructor's own result; for in-range inputs it succeeds and stores
`lat` and `lon` unchanged. -/
theorem geopoint_init_spec (lat lon : ℝ) :
    (GeoPoint.init lat lon = Except.error () ↔
      ¬(-90 ≤ lat ∧ lat ≤ 90 ∧ -180 ≤ lon ∧ lon ≤ 180)) ∧
    ((-90 ≤ lat ∧ lat ≤ 90 ∧ -180 ≤ lon ∧ lon ≤ 180) →
      GeoPoint.init lat lon = Except.ok ⟨lat, lon⟩) := by
  unfold GeoPoint.init
  by_cases h : -90 ≤ lat ∧ lat ≤ 90 ∧ -180 ≤ lon ∧ lon ≤ 180 <;>
    simp [h]

/-- Witness for C7: `GeoPoint.init` rejects `(91, 0)` and accepts
`(10, 20)` unchanged. -/
theorem geopoint_init_spec_witness :
    GeoPoint.init 91 0 = Except.error () ∧
    GeoPoint.init 10 20 = Except.ok ⟨10, 20⟩ :=
  ⟨(geopoint_init_spec 91 0).1.mpr (by norm_num),
   (geopoint_init_spec 10 20).2 (by norm_num)⟩

/-- C10: `GeoPoint.fancy` picks the hemisphere suffix by the strict test
`coord > 0`, so latitude 0 is suffixed "S" and longitude 0 is suffixed
"W"; "N"/"E" appear exactly for strictly positive coordinates. -/
theorem fancy_suffix_spec (p : GeoPoint) :
    (p.lat = 0 → (GeoPoint.fancy p).1.coord_dir = "S") ∧
    (p.lon = 0 → (GeoPoint.fancy p).2.coord_dir = "W") ∧
    ((GeoPoint.fancy p).1.coord_dir = "N" ↔ 0 < p.lat) ∧
    ((GeoPoint.fancy p).2.coord_dir = "E" ↔ 0 < p.lon) := by
  refine ⟨fun h => ?_, fun h => ?_, ?_, ?_⟩
  · unfold GeoPoint.fancy fancy_coord; simp [h]
  · unfold GeoPoint.fancy fancy_coord; simp [h]
  · unfold GeoPoint.fancy fancy_coord
    by_cases h1 : p.lat > 0 <;> simp [h1]
  · unfold GeoPoint.fancy fancy_coord
    by_cases h2 : p.lon > 0 <;> simp [h2]

/-- Witness for C10: the point `(0, 0)` is suffixed "S" and "W". -/
theorem fancy_suffix_spec_witness :
    (GeoPoint.fancy ⟨0, 0⟩).1.coord_dir = "S" ∧
    (GeoPoint.fancy ⟨0, 0⟩).2.coord_dir = "W" :=
  ⟨(fancy_suffix_spec ⟨0, 0⟩).1 rfl, (fancy_suffix_spec ⟨0, 0⟩).2.1 rfl⟩

/-- C9: in `Tile.from_pixpoint_and_level` the lower clamp precedes the
upper clamp, so a level with `cols = 0` yields `col = -1` (likewise for
rows), and the bounds `0 ≤ col ≤ cols - 1`, `0 ≤ row ≤ rows - 1` hold
whenever `cols ≥ 1` and `rows ≥ 1`. -/
theorem tile_clamp_order_spec (pixpoint : PixPoint) (level : ZoomLevel)
    (metadata : Metadata) :
    ((metadata.level_info.getD level.index ⟨0, 0⟩).cols = 0 →
      (Tile.from_pixpoint_and_level pixpoint level metadata).col = -1) ∧
    ((metadata.level_info.getD level.index ⟨0, 0⟩).rows = 0 →
      (Tile.from_pixpoint_and_level pixpoint level metadata).row = -1) ∧
    (1 ≤ (metadata.level_info.getD level.index ⟨0, 0⟩).cols →
      0 ≤ (Tile.from_pixpoint_and_level pixpoint level metadata).col ∧
      (Tile.from_pixpoint_and_level pixpoint level metadata).col ≤
        (metadata.level_info.getD level.index ⟨0, 0⟩).cols - 1) ∧
    (1 ≤ (metadata.level_info.getD level.index ⟨0, 0⟩).rows →
      0 ≤ (Tile.from_pixpoint_and_level pixpoint level metadata).row ∧
      (Tile.from_pixpoint_and_level pixpoint level metadata).row ≤
        (metadata.level_info.getD level.index ⟨0, 0⟩).rows - 1) := by
  refine ⟨?_, ?_, ?_, ?_⟩ <;>
    simp only [Tile.from_pixpoint_and_level] <;> omega

/-- Witness for C9: a metadata record whose level-0 grid is empty
(`cols = rows = 0`) makes the indexer return tile `(-1, -1)`. -/
theorem tile_clamp_order_spec_witness :
    (Tile.from_pixpoint_and_level ⟨0, 0⟩ ⟨0, 0, 0⟩
      ⟨1, 1, 1, 1, 1, [⟨0, 0⟩]⟩).col = -1 ∧
    (Tile.from_pixpoint_and_level ⟨0, 0⟩ ⟨0, 0, 0⟩
      ⟨1, 1, 1, 1, 1, [⟨0, 0⟩]⟩).row = -1 :=
  ⟨(tile_clamp_order_spec ⟨0, 0⟩ ⟨0, 0, 0⟩ ⟨1, 1, 1, 1, 1, [⟨0, 0⟩]⟩).1 rfl,
   (tile_clamp_order_spec ⟨0, 0⟩ ⟨0, 0, 0⟩ ⟨1, 1, 1, 1, 1, [⟨0, 0⟩]⟩).2.1 rfl⟩

/-- Counterexample to C4 as stated: with a metadata record whose level-0
grid has `cols = 0`, the returned column is `-1`, outside
`[0, cols - 1]`, so the bounds do not hold for *every* metadata. -/
theorem tile_bounds_counterexample :
    (Tile.from_pixpoint_and_level ⟨0, 0⟩ ⟨0, 0, 0⟩
      ⟨1, 1, 1, 1, 1, [⟨0, 0⟩]⟩).col = -1 ∧
    ¬ (0 ≤ (Tile.from_pixpoint_and_level ⟨0, 0⟩ ⟨0, 0, 0⟩
      ⟨1, 1, 1, 1, 1, [⟨0, 0⟩]⟩).col) := by
  have h : ∀ z : ℤ, min (max z 0) (0 - 1) = -1 := by omega
  have hcol : (Tile.from_pixpoint_and_level ⟨0, 0⟩ ⟨0, 0, 0⟩
      ⟨1, 1, 1, 1, 1, [⟨0, 0⟩]⟩).col = -1 := h _
  exact ⟨hcol, by rw [hcol]; norm_num⟩

/-- C4 (amended): for every pixel point (also far outside the raster),
every level and every metadata whose grid at that level has at least one
column and one row, `Tile.from_pixpoint_and_level` returns
`col ∈ [0, cols - 1]` and `row ∈ [0, rows - 1]`; out-of-range values are
clamped, never rejected. -/
theorem tile_bounds_spec (pixpoint : PixPoint) (level : ZoomLevel)
    (metadata : Metadata)
    (hc : 1 ≤ (metadata.level_info.getD level.index ⟨0, 0⟩).cols)
    (hr : 1 ≤ (metadata.level_info.getD level.index ⟨0, 0⟩).rows) :
    0 ≤ (Tile.from_pixpoint_and_level pixpoint level metadata).col ∧
    (Tile.from_pixpoint_and_level pixpoint level metadata).col ≤
      (metadata.level_info.getD level.index ⟨0, 0⟩).cols - 1 ∧
    0 ≤ (Tile.from_pixpoint_and_level pixpoint level metadata).row ∧
    (Tile.from_pixpoint_and_level pixpoint level metadata).row ≤
      (metadata.level_info.getD level.index ⟨0, 0⟩).rows - 1 := by
  refine ⟨?_, ?_, ?_, ?_⟩ <;>
    simp only [Tile.from_pixpoint_and_level] at * <;> omega

/-- Witness for C4 (amended): a 1×1 level-0 grid pins the tile to
`(0, 0)` whatever the pixel point. -/
theorem tile_bounds_spec_witness :
    0 ≤ (Tile.from_pixpoint_and_level ⟨-12345, 99999⟩ ⟨0, 0, 0⟩
      ⟨1, 1, 1, 1, 1, [⟨1, 1⟩]⟩).col ∧
    (Tile.from_pixpoint_and_level ⟨-12345, 99999⟩ ⟨0, 0, 0⟩
      ⟨1, 1, 1, 1, 1, [⟨1, 1⟩]⟩).col ≤
      (([⟨1, 1⟩] : List LevelInfo).getD 0 ⟨0, 0⟩).cols - 1 ∧
    0 ≤ (Tile.from_pixpoint_and_level ⟨-12345, 99999⟩ ⟨0, 0, 0⟩
      ⟨1, 1, 1, 1, 1, [⟨1, 1⟩]⟩).row ∧
    (Tile.from_pixpoint_and_level ⟨-12345, 99999⟩ ⟨0, 0, 0⟩
      ⟨1, 1, 1, 1, 1, [⟨1, 1⟩]⟩).row ≤
      (([⟨1, 1⟩] : List LevelInfo).getD 0 ⟨0, 0⟩).rows - 1 :=
  tile_bounds_spec ⟨-12345, 99999⟩ ⟨0, 0, 0⟩ ⟨1, 1, 1, 1, 1, [⟨1, 1⟩]⟩
    (by simp) (by simp)

/-- The loop of `GeoShape.random_geopoint` errors exactly when every draw
it has fuel to examine is rejected. -/
lemma rgAux_error_iff {G : Type} (contains : G → Bool) (draws : ℕ → G) :
    ∀ fuel k, rgAux contains draws fuel k = Except.error () ↔
      ∀ j, k ≤ j → j < k + fuel → contains (draws j) = false := by
  intro fuel
  induction fuel with
  | zero =>
    intro k
    constructor
    · intro _ j h1 h2; omega
    · intro _; rfl
  | succ n ih =>
    intro k
    simp only [rgAux]
    by_cases h : contains (draws k) = true
    · rw [if_pos h]
      constructor
      · intro hh; exact Except.noConfusion hh
      · intro hall; exact absurd (hall k le_rfl (by omega)) (by simp [h])
    · rw [if_neg h, ih (k + 1)]
      constructor
      · intro he j h1 h2
        rcases eq_or_lt_of_le h1 with rfl | hlt
        · exact Bool.eq_false_iff.mpr h
        · exact he j (by omega) (by omega)
      · intro hall j h1 h2; exact hall j (by omega) (by omega)

/-- The loop of `GeoShape.random_geopoint` only succeeds with the first
accepted draw among those it has fuel to examine. -/
lemma rgAux_ok {G : Type} (contains : G → Bool) (draws : ℕ → G) :
    ∀ fuel k g, rgAux contains draws fuel k = Except.ok g →
      ∃ j, k ≤ j ∧ j < k + fuel ∧ contains (draws j) = true ∧
        g = draws j ∧ ∀ i, k ≤ i → i < j → contains (draws i) = false := by
  intro fuel
  induction fuel with
  | zero => intro k g hg; exact Except.noConfusion hg
  | succ n ih =>
    intro k g hg
    simp only [rgAux] at hg
    by_cases h : contains (draws k) = true
    · rw [if_pos h] at hg
      refine ⟨k, le_rfl, by omega, h, (Except.ok.inj hg).symm, ?_⟩
      intro i h1 h2; omega
    · rw [if_neg h] at hg
      obtain ⟨j, h1, h2, hc, hgg, hmin⟩ := ih (k + 1) g hg
      refine ⟨j, by omega, by omega, hc, hgg, ?_⟩
      intro i hi1 hi2
      rcases eq_or_lt_of_le hi1 with rfl | hlt
      · exact Bool.eq_false_iff.mpr h
      · exact hmin i (by omega) hi2

/-- C3 (amended): `GeoShape.random_geopoint` returns the first drawn
point that `contains` accepts, and fails (the `ValueError`, the spec's
`SamplingExhausted`) exactly when 251 consecutive draws — the initial
draw plus the 250 redraws the loop permits — have all been rejected. -/
theorem random_geopoint_spec {G : Type} (contains : G → Bool)
    (draws : ℕ → G) :
    (GeoShape.random_geopoint contains draws = Except.error () ↔
      ∀ j, j < 251 → contains (draws j) = false) ∧
    (∀ g, GeoShape.random_geopoint contains draws = Except.ok g →
      ∃ j, j < 251 ∧ contains (draws j) = true ∧ g = draws j ∧
        ∀ i, i < j → contains (draws i) = false) := by
  constructor
  · rw [GeoShape.random_geopoint, rgAux_error_iff]
    constructor
    · intro h j hj; exact h j (by omega) (by omega)
    · intro h j _ hj; exact h j (by omega)
  · intro g hg
    obtain ⟨j, _, h2, hc, hgg, hmin⟩ :=
      rgAux_ok contains draws 251 0 g hg
    exact ⟨j, by omega, hc, hgg, fun i hi => hmin i (by omega) hi⟩

/-- Witness for C3 (amended): a containment test that rejects everything
makes `random_geopoint` fail. -/
theorem random_geopoint_spec_witness :
    GeoShape.random_geopoint (fun _ : ℕ => false) (fun n => n) =
      Except.error () :=
  (random_geopoint_spec (fun _ : ℕ => false) (fun n => n)).1.mpr
    (fun _ _ => rfl)

set_option maxRecDepth 4000 in
/-- Counterexample to C3 as stated: a containment test that accepts only
the 251st drawn value (index 250). The first 250 draws are all rejected,
so under the claimed 250-rejection cap the call would have to fail with
`SamplingExhausted`; instead the code accepts the 251st draw. -/
theorem random_geopoint_counterexample :
    ((List.range 250).all
      (fun j => !((fun n : ℕ => n == 250) ((fun n : ℕ => n) j)))) = true ∧
    GeoShape.random_geopoint (fun n : ℕ => n == 250) (fun n : ℕ => n) =
      Except.ok 250 := by
  constructor
  · decide
  · rfl

/-- Unfolding equation for the resolver loop at a positive level. -/
lemma determineLevelAux_succ (p : GeoPoint) (proj : MercatorProjection)
    (nlevels : ℕ) (maxM : ℝ) (l : ℕ) :
    determineLevelAux p proj nlevels maxM (l + 1) =
      if metersPerPixelAt p proj nlevels (l + 1) > maxM then
        ⟨l + 1, p.lat, metersPerPixelAt p proj nlevels (l + 1)⟩
      else determineLevelAux p proj nlevels maxM l := rfl

/-- Unfolding equation for the resolver loop at level 0. -/
lemma determineLevelAux_zero (p : GeoPoint) (proj : MercatorProjection)
    (nlevels : ℕ) (maxM : ℝ) :
    determineLevelAux p proj nlevels maxM 0 =
      ⟨0, p.lat, metersPerPixelAt p proj nlevels 0⟩ := rfl

/-- The resolver loop never returns a level above the one it starts at. -/
lemma determineLevelAux_index_le (p : GeoPoint) (proj : MercatorProjection)
    (nlevels : ℕ) (maxM : ℝ) :
    ∀ l, (determineLevelAux p proj nlevels maxM l).index ≤ l := by
  intro l
  induction l with
  | zero => rw [determineLevelAux_zero]
  | succ n ih =>
    rw [determineLevelAux_succ]
    by_cases h : metersPerPixelAt p proj nlevels (n + 1) > maxM
    · rw [if_pos h]
    · rw [if_neg h]; omega

/-- The resolver loop returns the first level, scanning downward from its
start, whose meters-per-pixel exceeds the bound — or level 0 — and the
returned `ZoomLevel` carries the point's latitude and that level's
meters-per-pixel value. -/
lemma determineLevelAux_spec (p : GeoPoint) (proj : MercatorProjection)
    (nlevels : ℕ) (maxM : ℝ) :
    ∀ l, ∃ i, i ≤ l ∧
      determineLevelAux p proj nlevels maxM l =
        ⟨i, p.lat, metersPerPixelAt p proj nlevels i⟩ ∧
      (metersPerPixelAt p proj nlevels i > maxM ∨ i = 0) ∧
      ∀ j, i < j → j ≤ l → metersPerPixelAt p proj nlevels j ≤ maxM := by
  intro l
  induction l with
  | zero =>
    exact ⟨0, le_rfl, determineLevelAux_zero p proj nlevels maxM,
      Or.inr rfl, fun j h1 h2 => absurd h2 (by omega)⟩
  | succ n ih =>
    by_cases h : metersPerPixelAt p proj nlevels (n + 1) > maxM
    · refine ⟨n + 1, le_rfl, ?_, Or.inl h, fun j h1 h2 => absurd h1 (by omega)⟩
      rw [determineLevelAux_succ, if_pos h]
    · obtain ⟨i, h1, h2, h3, h4⟩ := ih
      refine ⟨i, by omega, ?_, h3, ?_⟩
      · rw [determineLevelAux_succ, if_neg h]; exact h2
      · intro j hj1 hj2
        rcases Nat.lt_succ_iff_lt_or_eq.mp (Nat.lt_succ_of_le hj2) with hlt | rfl
        · exact h4 j hj1 (by omega)
        · exact le_of_not_lt h

/-- The checked inverse projection either succeeds with exactly the
unchecked pair or fails. -/
lemma pixpoint_to_geopoint_checked_cases (m : MercatorProjection)
    (pixpoint : PixPoint) :
    m.pixpoint_to_geopoint_checked pixpoint =
        Except.ok (m.pixpoint_to_geopoint pixpoint) ∨
      m.pixpoint_to_geopoint_checked pixpoint = Except.error () := by
  unfold MercatorProjection.pixpoint_to_geopoint_checked GeoPoint.init
    MercatorProjection.pixpoint_to_geopoint
  split_ifs with h
  · exact Or.inl rfl
  · exact Or.inr rfl

/-- The checked meters-per-pixel computation either yields exactly the
unchecked value or propagates the constructor's failure. -/
lemma metersPerPixelAtE_cases (p : GeoPoint) (proj : MercatorProjection)
    (nlevels l : ℕ) :
    metersPerPixelAtE p proj nlevels l =
        Except.ok (metersPerPixelAt p proj nlevels l) ∨
      metersPerPixelAtE p proj nlevels l = Except.error () := by
  rcases pixpoint_to_geopoint_checked_cases proj
      ⟨(proj.geopoint_to_pixpoint p).x +
        1 / (2 : ℝ) ^ ((l : ℤ) - ((nlevels : ℤ) - 1)),
       (proj.geopoint_to_pixpoint p).y⟩ with hok | herr
  · left
    show (match proj.pixpoint_to_geopoint_checked
        ⟨(proj.geopoint_to_pixpoint p).x +
          1 / (2 : ℝ) ^ ((l : ℤ) - ((nlevels : ℤ) - 1)),
         (proj.geopoint_to_pixpoint p).y⟩ with
      | Except.error e => Except.error e
      | Except.ok one_pixel_off =>
        Except.ok (radians 6371 * (|p.lon - one_pixel_off.lon| *
          Real.cos (radians p.lat)) * 1000)) =
      Except.ok (metersPerPixelAt p proj nlevels l)
    rw [hok]
    rfl
  · right
    show (match proj.pixpoint_to_geopoint_checked
        ⟨(proj.geopoint_to_pixpoint p).x +
          1 / (2 : ℝ) ^ ((l : ℤ) - ((nlevels : ℤ) - 1)),
         (proj.geopoint_to_pixpoint p).y⟩ with
      | Except.error e => Except.error e
      | Except.ok one_pixel_off =>
        Except.ok (radians 6371 * (|p.lon - one_pixel_off.lon| *
          Real.cos (radians p.lat)) * 1000)) = Except.error ()
    rw [herr]

/-- Unfolding of the checked resolver loop at level 0 on a successful
meters-per-pixel computation. -/
lemma determineLevelAuxE_zero_ok (p : GeoPoint) (proj : MercatorProjection)
    (nlevels : ℕ) (maxM v : ℝ)
    (h : metersPerPixelAtE p proj nlevels 0 = Except.ok v) :
    determineLevelAuxE p proj nlevels maxM 0 = Except.ok ⟨0, p.lat, v⟩ := by
  show (match metersPerPixelAtE p proj nlevels 0 with
    | Except.error e => Except.error e
    | Except.ok mpp => Except.ok (⟨0, p.lat, mpp⟩ : ZoomLevel)) =
    Except.ok ⟨0, p.lat, v⟩
  rw [h]

/-- Unfolding of the checked resolver loop at level 0 on a failing
meters-per-pixel computation. -/
lemma determineLevelAuxE_zero_err (p : GeoPoint) (proj : MercatorProjection)
    (nlevels : ℕ) (maxM : ℝ)
    (h : metersPerPixelAtE p proj nlevels 0 = Except.error ()) :
    determineLevelAuxE p proj nlevels maxM 0 = Except.error () := by
  show (match metersPerPixelAtE p proj nlevels 0 with
    | Except.error e => Except.error e
    | Except.ok mpp => Except.ok (⟨0, p.lat, mpp⟩ : ZoomLevel)) =
    Except.error ()
  rw [h]

/-- Unfolding of the checked resolver loop at a positive level on a
successful meters-per-pixel computation. -/
lemma determineLevelAuxE_succ_ok (p : GeoPoint) (proj : MercatorProjection)
    (nlevels : ℕ) (maxM : ℝ) (l : ℕ) (v : ℝ)
    (h : metersPerPixelAtE p proj nlevels (l + 1) = Except.ok v) :
    determineLevelAuxE p proj nlevels maxM (l + 1) =
      if v > maxM then Except.ok ⟨l + 1, p.lat, v⟩
      else determineLevelAuxE p proj nlevels maxM l := by
  show (match metersPerPixelAtE p proj nlevels (l + 1) with
    | Except.error e => Except.error e
    | Except.ok mpp =>
      if mpp > maxM then Except.ok (⟨l + 1, p.lat, mpp⟩ : ZoomLevel)
      else determineLevelAuxE p proj nlevels maxM l) = _
  rw [h]

/-- Unfolding of the checked resolver loop at a positive level on a
failing meters-per-pixel computation. -/
lemma determineLevelAuxE_succ_err (p : GeoPoint) (proj : MercatorProjection)
    (nlevels : ℕ) (maxM : ℝ) (l : ℕ)
    (h : metersPerPixelAtE p proj nlevels (l + 1) = Except.error ()) :
    determineLevelAuxE p proj nlevels maxM (l + 1) = Except.error () := by
  show (match metersPerPixelAtE p proj nlevels (l + 1) with
    | Except.error e => Except.error e
    | Except.ok mpp =>
      if mpp > maxM then Except.ok (⟨l + 1, p.lat, mpp⟩ : ZoomLevel)
      else determineLevelAuxE p proj nlevels maxM l) = Except.error ()
  rw [h]

/-- The checked resolver loop, fully characterized: scanning down from
its start level, every level above the stopping index passed the
constructor assert and did not exceed the bound, and at the stopping
index the loop either propagates the assert failure or returns the
first-index `ZoomLevel`. -/
lemma determineLevelAuxE_spec (p : GeoPoint) (proj : MercatorProjection)
    (nlevels : ℕ) (maxM : ℝ) :
    ∀ l, ∃ i, i ≤ l ∧
      ((determineLevelAuxE p proj nlevels maxM l = Except.error () ∧
        metersPerPixelAtE p proj nlevels i = Except.error ()) ∨
       (determineLevelAuxE p proj nlevels maxM l =
          Except.ok ⟨i, p.lat, metersPerPixelAt p proj nlevels i⟩ ∧
        metersPerPixelAtE p proj nlevels i =
          Except.ok (metersPerPixelAt p proj nlevels i) ∧
        (metersPerPixelAt p proj nlevels i > maxM ∨ i = 0))) ∧
      ∀ j, i < j → j ≤ l →
        metersPerPixelAtE p proj nlevels j =
          Except.ok (metersPerPixelAt p proj nlevels j) ∧
        metersPerPixelAt p proj nlevels j ≤ maxM := by
  intro l
  induction l with
  | zero =>
    rcases metersPerPixelAtE_cases p proj nlevels 0 with hok | herr
    · exact ⟨0, le_rfl,
        Or.inr ⟨determineLevelAuxE_zero_ok p proj nlevels maxM _ hok, hok,
          Or.inr rfl⟩,
        fun j h1 h2 => absurd h2 (by omega)⟩
    · exact ⟨0, le_rfl,
        Or.inl ⟨determineLevelAuxE_zero_err p proj nlevels maxM herr, herr⟩,
        fun j h1 h2 => absurd h2 (by omega)⟩
  | succ n ih =>
    rcases metersPerPixelAtE_cases p proj nlevels (n + 1) with hok | herr
    · by_cases hgt : metersPerPixelAt p proj nlevels (n + 1) > maxM
      · refine ⟨n + 1, le_rfl, Or.inr ⟨?_, hok, Or.inl hgt⟩,
          fun j h1 h2 => absurd h1 (by omega)⟩
        rw [determineLevelAuxE_succ_ok p proj nlevels maxM n _ hok,
          if_pos hgt]
      · have hstep : determineLevelAuxE p proj nlevels maxM (n + 1) =
            determineLevelAuxE p proj nlevels maxM n := by
          rw [determineLevelAuxE_succ_ok p proj nlevels maxM n _ hok,
            if_neg hgt]
        obtain ⟨i, hi1, hi2, hi3⟩ := ih
        refine ⟨i, by omega, ?_, ?_⟩
        · rcases hi2 with ⟨ha, hb⟩ | ⟨ha, hb, hc⟩
          · exact Or.inl ⟨by rw [hstep]; exact ha, hb⟩
          · exact Or.inr ⟨by rw [hstep]; exact ha, hb, hc⟩
        · intro j hj1 hj2
          rcases Nat.lt_succ_iff_lt_or_eq.mp (Nat.lt_succ_of_le hj2) with
            hlt | rfl
          · exact hi3 j hj1 (by omega)
          · exact ⟨hok, le_of_not_lt hgt⟩
    · exact ⟨n + 1, le_rfl,
        Or.inl ⟨determineLevelAuxE_succ_err p proj nlevels maxM n herr,
          herr⟩,
        fun j h1 h2 => absurd h1 (by omega)⟩

/-- C2 (amended): for every point, projection, `nlevels ≥ 1` and
resolution bound, `determine_level` scans indices from `nlevels - 1`
down to 0; every scanned level above the stopping index has an in-range
inverse-projected offset point and a meters-per-pixel not exceeding the
bound, and at the stopping index the call either raises the
`GeoPoint` constructor's `AssertionError` (when that level's
inverse-projected offset point is out of range) or returns the
`ZoomLevel` of that first index whose meters-per-pixel exceeds the bound
(falling back to index 0), carrying the point's latitude and a
meters-per-pixel equal to
`degrees_per_pixel · cos(radians(lat)) · (π/180) · 6371000`,
`scale = 2 ^ (index - (nlevels - 1))`. The loop always terminates, but
it is not total: the assert failure path is reachable. -/
theorem determine_level_spec (p : GeoPoint) (proj : MercatorProjection)
    (nlevels : ℕ) (maxM : ℝ) (_hn : 1 ≤ nlevels) :
    ∃ i, i ≤ nlevels - 1 ∧
      ((p.determine_levelE proj nlevels maxM = Except.error () ∧
        metersPerPixelAtE p proj nlevels i = Except.error ()) ∨
       (p.determine_levelE proj nlevels maxM =
          Except.ok ⟨i, p.lat, metersPerPixelAt p proj nlevels i⟩ ∧
        metersPerPixelAtE p proj nlevels i =
          Except.ok (metersPerPixelAt p proj nlevels i) ∧
        (metersPerPixelAt p proj nlevels i > maxM ∨ i = 0) ∧
        metersPerPixelAt p proj nlevels i =
          |p.lon - (proj.pixpoint_to_geopoint
              ⟨(proj.geopoint_to_pixpoint p).x +
                1 / (2 : ℝ) ^ ((i : ℤ) - ((nlevels : ℤ) - 1)),
               (proj.geopoint_to_pixpoint p).y⟩).lon| *
            Real.cos (radians p.lat) * (π / 180) * 6371000)) ∧
      ∀ j, i < j → j ≤ nlevels - 1 →
        metersPerPixelAtE p proj nlevels j =
          Except.ok (metersPerPixelAt p proj nlevels j) ∧
        metersPerPixelAt p proj nlevels j ≤ maxM := by
  obtain ⟨i, h1, h2, h3⟩ :=
    determineLevelAuxE_spec p proj nlevels maxM (nlevels - 1)
  refine ⟨i, h1, ?_, h3⟩
  rcases h2 with ⟨ha, hb⟩ | ⟨ha, hb, hc⟩
  · exact Or.inl ⟨ha, hb⟩
  · refine Or.inr ⟨ha, hb, hc, ?_⟩
    unfold metersPerPixelAt radians
    ring

/-- Witness for C2 (amended): with one single level the checked resolver
stops at index 0. -/
theorem determine_level_spec_witness :
    ∃ i, i ≤ 1 - 1 ∧
      ((GeoPoint.determine_levelE ⟨0, 0⟩ ⟨-180, 85, 180, -85, 256, 256⟩
          1 5 = Except.error () ∧
        metersPerPixelAtE ⟨0, 0⟩ ⟨-180, 85, 180, -85, 256, 256⟩ 1 i =
          Except.error ()) ∨
       (GeoPoint.determine_levelE ⟨0, 0⟩ ⟨-180, 85, 180, -85, 256, 256⟩
          1 5 = Except.ok ⟨i, (0 : ℝ),
            metersPerPixelAt ⟨0, 0⟩ ⟨-180, 85, 180, -85, 256, 256⟩ 1 i⟩ ∧
        metersPerPixelAtE ⟨0, 0⟩ ⟨-180, 85, 180, -85, 256, 256⟩ 1 i =
          Except.ok
            (metersPerPixelAt ⟨0, 0⟩ ⟨-180, 85, 180, -85, 256, 256⟩ 1 i) ∧
        (metersPerPixelAt ⟨0, 0⟩ ⟨-180, 85, 180, -85, 256, 256⟩ 1 i > 5 ∨
          i = 0) ∧
        metersPerPixelAt ⟨0, 0⟩ ⟨-180, 85, 180, -85, 256, 256⟩ 1 i =
          |(0 : ℝ) - ((⟨-180, 85, 180, -85, 256, 256⟩ :
              MercatorProjection).pixpoint_to_geopoint
              ⟨((⟨-180, 85, 180, -85, 256, 256⟩ :
                  MercatorProjection).geopoint_to_pixpoint ⟨0, 0⟩).x +
                1 / (2 : ℝ) ^ ((i : ℤ) - ((1 : ℤ) - 1)),
               ((⟨-180, 85, 180, -85, 256, 256⟩ :
                  MercatorProjection).geopoint_to_pixpoint ⟨0, 0⟩).y⟩).lon| *
            Real.cos (radians (0 : ℝ)) * (π / 180) * 6371000)) ∧
      ∀ j, i < j → j ≤ 1 - 1 →
        metersPerPixelAtE ⟨0, 0⟩ ⟨-180, 85, 180, -85, 256, 256⟩ 1 j =
          Except.ok
            (metersPerPixelAt ⟨0, 0⟩ ⟨-180, 85, 180, -85, 256, 256⟩ 1 j) ∧
        metersPerPixelAt ⟨0, 0⟩ ⟨-180, 85, 180, -85, 256, 256⟩ 1 j ≤ 5 :=
  determine_level_spec ⟨0, 0⟩ ⟨-180, 85, 180, -85, 256, 256⟩ 1 5 le_rfl

/-- C6: the resolver is monotone in the resolution ceiling — a looser
bound never yields a finer (higher-index) level. -/
theorem determine_level_mono (p : GeoPoint) (proj : MercatorProjection)
    (nlevels : ℕ) (m1 m2 : ℝ) (h : m1 ≤ m2) :
    (p.determine_level proj nlevels m2).index ≤
      (p.determine_level proj nlevels m1).index := by
  unfold GeoPoint.determine_level
  generalize nlevels - 1 = l
  induction l with
  | zero => rw [determineLevelAux_zero, determineLevelAux_zero]
  | succ n ih =>
    rw [determineLevelAux_succ, determineLevelAux_succ]
    by_cases h2 : metersPerPixelAt p proj nlevels (n + 1) > m2
    · rw [if_pos h2, if_pos (lt_of_le_of_lt h h2)]
    · rw [if_neg h2]
      by_cases h1 : metersPerPixelAt p proj nlevels (n + 1) > m1
      · rw [if_pos h1]
        exact le_trans (determineLevelAux_index_le p proj nlevels m2 n)
          (by show n ≤ n + 1; omega)
      · rw [if_neg h1]; exact ih

/-- Witness for C6 at a concrete point, projection and bounds. -/
theorem determine_level_mono_witness :
    (GeoPoint.determine_level ⟨0, 0⟩ ⟨-180, 85, 180, -85, 256, 256⟩ 10
        1000000).index ≤
      (GeoPoint.determine_level ⟨0, 0⟩ ⟨-180, 85, 180, -85, 256, 256⟩ 10
        1).index :=
  determine_level_mono ⟨0, 0⟩ ⟨-180, 85, 180, -85, 256, 256⟩ 10 1 1000000
    (by norm_num)

/-- C8: whenever `determine_level` settles on an index above 0, the
stored meters-per-pixel strictly exceeds the requested bound. -/
theorem determine_level_exceeds (p : GeoPoint) (proj : MercatorProjection)
    (nlevels : ℕ) (maxM : ℝ)
    (h : 0 < (p.determine_level proj nlevels maxM).index) :
    (p.determine_level proj nlevels maxM).meters_per_pixel > maxM := by
  unfold GeoPoint.determine_level at *
  revert h
  generalize nlevels - 1 = l
  induction l with
  | zero => rw [determineLevelAux_zero]; intro h; simp at h
  | succ n ih =>
    rw [determineLevelAux_succ]
    by_cases hc : metersPerPixelAt p proj nlevels (n + 1) > maxM
    · rw [if_pos hc]; exact fun _ => hc
    · rw [if_neg hc]; exact ih

/-- The meters-per-pixel value is nonnegative whenever the latitude's
cosine is (in particular at the equator). -/
lemma metersPerPixelAt_nonneg (p : GeoPoint) (proj : MercatorProjection)
    (nlevels l : ℕ) (h : 0 ≤ Real.cos (radians p.lat)) :
    0 ≤ metersPerPixelAt p proj nlevels l := by
  unfold metersPerPixelAt
  have h1 : (0 : ℝ) ≤ radians 6371 := by unfold radians; positivity
  exact mul_nonneg (mul_nonneg h1 (mul_nonneg (abs_nonneg _) h))
    (by norm_num)

/-- Witness for C8: with a negative resolution bound every level exceeds
it, so the resolver stays at the finest level (index 1 of 2) and the
stored meters-per-pixel exceeds the bound. -/
theorem determine_level_exceeds_witness :
    (GeoPoint.determine_level ⟨0, 0⟩ ⟨-180, 85, 180, -85, 256, 256⟩ 2
      (-1)).meters_per_pixel > -1 := by
  have hcos : (0 : ℝ) ≤ Real.cos (radians (0 : ℝ)) := by
    unfold radians
    norm_num
  have hm : metersPerPixelAt ⟨0, 0⟩ ⟨-180, 85, 180, -85, 256, 256⟩ 2 1 >
      (-1 : ℝ) :=
    lt_of_lt_of_le (by norm_num)
      (metersPerPixelAt_nonneg ⟨0, 0⟩ ⟨-180, 85, 180, -85, 256, 256⟩ 2 1
        hcos)
  refine determine_level_exceeds ⟨0, 0⟩ ⟨-180, 85, 180, -85, 256, 256⟩ 2
    (-1) ?_
  show 0 < (determineLevelAux ⟨0, 0⟩ ⟨-180, 85, 180, -85, 256, 256⟩ 2
    (-1) (2 - 1)).index
  rw [show (2 - 1 : ℕ) = 0 + 1 from rfl, determineLevelAux_succ, if_pos hm]
  exact Nat.succ_pos 0

/-- The longitude computation of `GeoPoint.random`: starting from a
west bound, adding a (possibly antimeridian-wrapped) width scaled by a
uniform value in `[0, 1)` and normalizing back into `[-180, 180]` lands
in the rectangle's longitude span. -/
lemma lon_norm_span (w e u lon0 lon : ℝ)
    (hlon0 : lon0 = w + (if e - w < 0 then e - w + 360 else e - w) * u)
    (hlon : lon = if lon0 > 180 then lon0 - 360
      else if lon0 < -180 then lon0 + 360 else lon0)
    (hw1 : -180 ≤ w) (hw2 : w ≤ 180) (he1 : -180 ≤ e) (he2 : e ≤ 180)
    (hu : 0 ≤ u) (hu' : u < 1) :
    if e < w then (w ≤ lon ∧ lon ≤ 180) ∨ (-180 ≤ lon ∧ lon ≤ e)
    else w ≤ lon ∧ lon ≤ e := by
  by_cases hwrap : e < w
  · rw [if_pos hwrap]
    have hw0 : e - w < 0 := by linarith
    rw [if_pos hw0] at hlon0
    have hwd0 : 0 ≤ e - w + 360 := by linarith
    have hmul0 : 0 ≤ (e - w + 360) * u := mul_nonneg hwd0 hu
    have hmul1 : (e - w + 360) * u ≤ e - w + 360 := by nlinarith
    by_cases hhi : lon0 > 180
    · rw [if_pos hhi] at hlon
      right
      have hwpos : 0 < e - w + 360 := by
        rcases eq_or_lt_of_le hwd0 with heq | h
        · exfalso
          have hz : (e - w + 360) * u = 0 := by rw [← heq]; ring
          linarith [hlon0, hw2]
        · exact h
      have hlt : (e - w + 360) * u < e - w + 360 := by nlinarith
      constructor <;> linarith
    · rw [if_neg hhi] at hlon
      have hlo : ¬ lon0 < -180 := by linarith
      rw [if_neg hlo] at hlon
      left
      constructor <;> linarith
  · rw [if_neg hwrap]
    have hw0 : ¬ (e - w < 0) := by linarith
    rw [if_neg hw0] at hlon0
    have h0 : 0 ≤ e - w := by linarith
    have hmul0 : 0 ≤ (e - w) * u := mul_nonneg h0 hu
    have hmul1 : (e - w) * u ≤ e - w := by nlinarith
    have hhi : ¬ lon0 > 180 := by linarith
    have hlo : ¬ lon0 < -180 := by linarith
    rw [if_neg hhi, if_neg hlo] at hlon
    constructor <;> linarith

/-- C5: for every valid rectangle and every outcome of the two
underlying uniform draws, `GeoPoint.random` yields a latitude inside
`[sw.lat, ne.lat]` — drawn as the arcsine of a uniform interpolation
between `sin(south)` and `sin(north)` — and a longitude inside the
rectangle's longitude span, wrapping across the antimeridian when
`ne.lon < sw.lon`. -/
theorem random_in_rect_spec (R : GeoRect) (u1 u2 : ℝ)
    (hlat1 : -90 ≤ R.sw.lat) (hlat2 : R.sw.lat ≤ R.ne.lat)
    (hlat3 : R.ne.lat ≤ 90)
    (hw1 : -180 ≤ R.sw.lon) (hw2 : R.sw.lon ≤ 180)
    (he1 : -180 ≤ R.ne.lon) (he2 : R.ne.lon ≤ 180)
    (hu1 : 0 ≤ u1) (hu1' : u1 < 1) (hu2 : 0 ≤ u2) (hu2' : u2 < 1) :
    (R.sw.lat ≤ (GeoPoint.random R u1 u2).lat ∧
      (GeoPoint.random R u1 u2).lat ≤ R.ne.lat) ∧
    (GeoPoint.random R u1 u2).lat = degrees (Real.arcsin
      (u1 * (Real.sin (radians R.ne.lat) - Real.sin (radians R.sw.lat)) +
        Real.sin (radians R.sw.lat))) ∧
    (if R.ne.lon < R.sw.lon then
      (R.sw.lon ≤ (GeoPoint.random R u1 u2).lon ∧
        (GeoPoint.random R u1 u2).lon ≤ 180) ∨
      (-180 ≤ (GeoPoint.random R u1 u2).lon ∧
        (GeoPoint.random R u1 u2).lon ≤ R.ne.lon)
    else
      R.sw.lon ≤ (GeoPoint.random R u1 u2).lon ∧
        (GeoPoint.random R u1 u2).lon ≤ R.ne.lon) := by
  have hπ := Real.pi_pos
  have hS1 : -(π / 2) ≤ radians R.sw.lat := by unfold radians; nlinarith
  have hS2 : radians R.sw.lat ≤ π / 2 := by unfold radians; nlinarith
  have hN1 : -(π / 2) ≤ radians R.ne.lat := by unfold radians; nlinarith
  have hN2 : radians R.ne.lat ≤ π / 2 := by unfold radians; nlinarith
  have hsin : Real.sin (radians R.sw.lat) ≤ Real.sin (radians R.ne.lat) :=
    Real.sin_le_sin_of_le_of_le_pi_div_two hS1 hN2
      (by unfold radians; nlinarith)
  have ht1 : Real.sin (radians R.sw.lat) ≤
      u1 * (Real.sin (radians R.ne.lat) - Real.sin (radians R.sw.lat)) +
        Real.sin (radians R.sw.lat) := by nlinarith
  have ht2 : u1 * (Real.sin (radians R.ne.lat) -
        Real.sin (radians R.sw.lat)) + Real.sin (radians R.sw.lat) ≤
      Real.sin (radians R.ne.lat) := by nlinarith
  have harc1 : radians R.sw.lat ≤ Real.arcsin
      (u1 * (Real.sin (radians R.ne.lat) - Real.sin (radians R.sw.lat)) +
        Real.sin (radians R.sw.lat)) :=
    (Real.arcsin_sin hS1 hS2).symm.trans_le (Real.monotone_arcsin ht1)
  have harc2 : Real.arcsin
      (u1 * (Real.sin (radians R.ne.lat) - Real.sin (radians R.sw.lat)) +
        Real.sin (radians R.sw.lat)) ≤ radians R.ne.lat :=
    (Real.monotone_arcsin ht2).trans_eq (Real.arcsin_sin hN1 hN2)
  refine ⟨⟨?_, ?_⟩, rfl, ?_⟩
  · show R.sw.lat ≤ degrees (Real.arcsin
      (u1 * (Real.sin (radians R.ne.lat) - Real.sin (radians R.sw.lat)) +
        Real.sin (radians R.sw.lat)))
    have heq : R.sw.lat = radians R.sw.lat * 180 / π := by
      unfold radians; field_simp
    refine le_trans (le_of_eq heq) ?_
    unfold degrees
    exact (div_le_div_iff_of_pos_right hπ).mpr (by nlinarith)
  · show degrees (Real.arcsin
      (u1 * (Real.sin (radians R.ne.lat) - Real.sin (radians R.sw.lat)) +
        Real.sin (radians R.sw.lat))) ≤ R.ne.lat
    have heq : R.ne.lat = radians R.ne.lat * 180 / π := by
      unfold radians; field_simp
    refine le_trans ?_ (le_of_eq heq.symm)
    unfold degrees
    exact (div_le_div_iff_of_pos_right hπ).mpr (by nlinarith)
  · exact lon_norm_span R.sw.lon R.ne.lon u2 _ _ rfl rfl hw1 hw2 he1 he2
      hu2 hu2'

/-- Witness for C5 at a concrete rectangle and concrete draws. -/
theorem random_in_rect_spec_witness :
    ((10 : ℝ) ≤ (GeoPoint.random ⟨⟨10, 20⟩, ⟨30, 40⟩⟩ (1/2) (1/2)).lat ∧
      (GeoPoint.random ⟨⟨10, 20⟩, ⟨30, 40⟩⟩ (1/2) (1/2)).lat ≤ 30) ∧
    (GeoPoint.random ⟨⟨10, 20⟩, ⟨30, 40⟩⟩ (1/2) (1/2)).lat =
      degrees (Real.arcsin
        ((1/2) * (Real.sin (radians (30 : ℝ)) - Real.sin (radians (10 : ℝ))) +
          Real.sin (radians (10 : ℝ)))) ∧
    (if (40 : ℝ) < 20 then
      ((20 : ℝ) ≤ (GeoPoint.random ⟨⟨10, 20⟩, ⟨30, 40⟩⟩ (1/2) (1/2)).lon ∧
        (GeoPoint.random ⟨⟨10, 20⟩, ⟨30, 40⟩⟩ (1/2) (1/2)).lon ≤ 180) ∨
      ((-180 : ℝ) ≤ (GeoPoint.random ⟨⟨10, 20⟩, ⟨30, 40⟩⟩ (1/2) (1/2)).lon ∧
        (GeoPoint.random ⟨⟨10, 20⟩, ⟨30, 40⟩⟩ (1/2) (1/2)).lon ≤ 40)
    else
      (20 : ℝ) ≤ (GeoPoint.random ⟨⟨10, 20⟩, ⟨30, 40⟩⟩ (1/2) (1/2)).lon ∧
        (GeoPoint.random ⟨⟨10, 20⟩, ⟨30, 40⟩⟩ (1/2) (1/2)).lon ≤ 40) :=
  random_in_rect_spec ⟨⟨10, 20⟩, ⟨30, 40⟩⟩ (1/2) (1/2)
    (by norm_num) (by norm_num) (by norm_num) (by norm_num) (by norm_num)
    (by norm_num) (by norm_num) (by norm_num) (by norm_num) (by norm_num)
    (by norm_num)

/-- Linear interpolation inverts linear interpolation when neither the
source nor the target interval is degenerate. -/
lemma interpolate_interpolate (x a b c d : ℝ) (hab : b - a ≠ 0)
    (hcd : d - c ≠ 0) :
    interpolate (interpolate x a b c d) c d a b = x := by
  unfold interpolate
  field_simp
  ring

/-- The Web Mercator vertical unwarp inverts the warp strictly inside the
poles: `(2·atan(e^y) − π/2)·180/π` applied to
`y = ln((1+sin(lat·π/180)) / cos(lat·π/180))` recovers `lat`. -/
lemma raw_unproject_raw_project (lat : ℝ) (h1 : -90 < lat) (h2 : lat < 90) :
    raw_unproject_lat (raw_project_lat lat) = lat := by
  have hπ := Real.pi_pos
  obtain ⟨θ, hθdef⟩ : ∃ t, t = lat * π / 180 := ⟨_, rfl⟩
  have hθ1 : -(π / 2) < θ := by rw [hθdef]; nlinarith
  have hθ2 : θ < π / 2 := by rw [hθdef]; nlinarith
  obtain ⟨x, hxdef⟩ : ∃ t, t = θ / 2 + π / 4 := ⟨_, rfl⟩
  have hx1 : 0 < x := by rw [hxdef]; linarith
  have hx2 : x < π / 2 := by rw [hxdef]; linarith
  have hcosx : 0 < Real.cos x :=
    Real.cos_pos_of_mem_Ioo ⟨by linarith, hx2⟩
  have hsinx : 0 < Real.sin x :=
    Real.sin_pos_of_pos_of_lt_pi hx1 (by linarith)
  have hcosθ : 0 < Real.cos θ := Real.cos_pos_of_mem_Ioo ⟨hθ1, hθ2⟩
  have hs2 : Real.sin x =
      Real.sqrt 2 / 2 * (Real.sin (θ / 2) + Real.cos (θ / 2)) := by
    rw [hxdef, Real.sin_add, Real.sin_pi_div_four, Real.cos_pi_div_four]
    ring
  have hc2 : Real.cos x =
      Real.sqrt 2 / 2 * (Real.cos (θ / 2) - Real.sin (θ / 2)) := by
    rw [hxdef, Real.cos_add, Real.sin_pi_div_four, Real.cos_pi_div_four]
    ring
  have hsqrt2 : 0 < Real.sqrt 2 := Real.sqrt_pos.mpr (by norm_num)
  have hcs : 0 < Real.cos (θ / 2) - Real.sin (θ / 2) := by
    rcases lt_trichotomy 0 (Real.cos (θ / 2) - Real.sin (θ / 2)) with h | h | h
    · exact h
    · exfalso; rw [hc2, ← h] at hcosx; simp at hcosx
    · exfalso; nlinarith [hcosx, hc2]
  have hsc : 0 < Real.sin (θ / 2) + Real.cos (θ / 2) := by
    rcases lt_trichotomy 0 (Real.sin (θ / 2) + Real.cos (θ / 2)) with h | h | h
    · exact h
    · exfalso; rw [hs2, ← h] at hsinx; simp at hsinx
    · exfalso; nlinarith [hsinx, hs2]
  have hpyth : Real.sin (θ / 2) ^ 2 + Real.cos (θ / 2) ^ 2 = 1 :=
    Real.sin_sq_add_cos_sq _
  have hsinθ : Real.sin θ = 2 * Real.sin (θ / 2) * Real.cos (θ / 2) := by
    conv_lhs => rw [show θ = 2 * (θ / 2) by ring]
    exact Real.sin_two_mul _
  have hcosθeq : Real.cos θ =
      (Real.cos (θ / 2) - Real.sin (θ / 2)) *
        (Real.cos (θ / 2) + Real.sin (θ / 2)) := by
    conv_lhs => rw [show θ = 2 * (θ / 2) by ring, Real.cos_two_mul]
    linear_combination hpyth
  have htan : (1 + Real.sin θ) / Real.cos θ = Real.tan x := by
    rw [Real.tan_eq_sin_div_cos, hs2, hc2, hsinθ, hcosθeq]
    rw [div_eq_div_iff (by nlinarith) (by nlinarith)]
    linear_combination (Real.sqrt 2 / 2 *
      (Real.sin (θ / 2) - Real.cos (θ / 2))) * hpyth
  have hupos : 0 < (1 + Real.sin θ) / Real.cos θ := by
    rw [htan, Real.tan_eq_sin_div_cos]
    exact div_pos hsinx hcosx
  unfold raw_unproject_lat raw_project_lat
  rw [← hθdef, Real.exp_log hupos, htan,
    Real.arctan_tan (by linarith) hx2, hxdef, hθdef]
  field_simp
  ring

/-- C1: for every point within the projection bounds of a well-formed
projection (bounds strictly inside the poles, nonzero raster size), the
inverse projection applied to the forward projection recovers the point
to within `1e-6` degrees in both coordinates (in the real-number model,
exactly). -/
theorem projection_round_trip (m : MercatorProjection) (p : GeoPoint)
    (hwe : m.west < m.east) (hwd : m.width ≠ 0) (hht : m.height ≠ 0)
    (hs : -90 < m.south) (hn : m.north < 90) (hsn : m.south < m.north)
    (hplat1 : m.south ≤ p.lat) (hplat2 : p.lat ≤ m.north)
    (_hplon1 : m.west ≤ p.lon) (_hplon2 : p.lon ≤ m.east) :
    |(m.pixpoint_to_geopoint (m.geopoint_to_pixpoint p)).lat - p.lat| ≤
      1e-6 ∧
    |(m.pixpoint_to_geopoint (m.geopoint_to_pixpoint p)).lon - p.lon| ≤
      1e-6 := by
  have hps : raw_unproject_lat (raw_project_lat m.south) = m.south :=
    raw_unproject_raw_project _ hs (by linarith)
  have hpn : raw_unproject_lat (raw_project_lat m.north) = m.north :=
    raw_unproject_raw_project _ (by linarith) hn
  have hne : raw_project_lat m.south ≠ raw_project_lat m.north := by
    intro hcontra
    have : m.south = m.north := by rw [← hps, ← hpn, hcontra]
    linarith
  have hlat : (m.pixpoint_to_geopoint (m.geopoint_to_pixpoint p)).lat =
      p.lat := by
    show raw_unproject_lat (interpolate
      (interpolate (raw_project_lat p.lat) (raw_project_lat m.north)
        (raw_project_lat m.south) 0 m.height)
      0 m.height (raw_project_lat m.north) (raw_project_lat m.south)) =
      p.lat
    rw [interpolate_interpolate _ _ _ _ _ (sub_ne_zero.mpr hne)
      (by simpa using hht)]
    exact raw_unproject_raw_project p.lat (by linarith) (by linarith)
  have hlon : (m.pixpoint_to_geopoint (m.geopoint_to_pixpoint p)).lon =
      p.lon := by
    show interpolate (interpolate p.lon m.west m.east 0 m.width)
      0 m.width m.west m.east = p.lon
    exact interpolate_interpolate _ _ _ _ _ (sub_ne_zero.mpr hwe.ne')
      (by simpa using hwd)
  rw [hlat, hlon]
  norm_num

/-- Witness for C1: the round trip at the equator point `(0, 0)` under
the standard Time Machine bounds. -/
theorem projection_round_trip_witness :
    |((⟨-180, 85, 180, -85, 256, 256⟩ :
        MercatorProjection).pixpoint_to_geopoint
        ((⟨-180, 85, 180, -85, 256, 256⟩ :
          MercatorProjection).geopoint_to_pixpoint ⟨0, 0⟩)).lat -
      (⟨0, 0⟩ : GeoPoint).lat| ≤ 1e-6 ∧
    |((⟨-180, 85, 180, -85, 256, 256⟩ :
        MercatorProjection).pixpoint_to_geopoint
        ((⟨-180, 85, 180, -85, 256, 256⟩ :
          MercatorProjection).geopoint_to_pixpoint ⟨0, 0⟩)).lon -
      (⟨0, 0⟩ : GeoPoint).lon| ≤ 1e-6 :=
  projection_round_trip ⟨-180, 85, 180, -85, 256, 256⟩ ⟨0, 0⟩
    (by norm_num) (by norm_num) (by norm_num) (by norm_num) (by norm_num)
    (by norm_num) (by norm_num) (by norm_num) (by norm_num) (by norm_num)

/-- The checked meters-per-pixel computation, rewritten under a
successful inverse projection. -/
lemma metersPerPixelAtE_eq_of_checked (p : GeoPoint)
    (proj : MercatorProjection) (nlevels l : ℕ) (g : GeoPoint)
    (h : proj.pixpoint_to_geopoint_checked
      ⟨(proj.geopoint_to_pixpoint p).x +
        1 / (2 : ℝ) ^ ((l : ℤ) - ((nlevels : ℤ) - 1)),
       (proj.geopoint_to_pixpoint p).y⟩ = Except.ok g) :
    metersPerPixelAtE p proj nlevels l =
      Except.ok (radians 6371 * (|p.lon - g.lon| *
        Real.cos (radians p.lat)) * 1000) := by
  show (match proj.pixpoint_to_geopoint_checked
      ⟨(proj.geopoint_to_pixpoint p).x +
        1 / (2 : ℝ) ^ ((l : ℤ) - ((nlevels : ℤ) - 1)),
       (proj.geopoint_to_pixpoint p).y⟩ with
    | Except.error e => Except.error e
    | Except.ok one_pixel_off =>
      Except.ok (radians 6371 * (|p.lon - one_pixel_off.lon| *
        Real.cos (radians p.lat)) * 1000)) = _
  rw [h]

/-- The checked meters-per-pixel computation, rewritten under a failing
inverse projection. -/
lemma metersPerPixelAtE_err_of_checked (p : GeoPoint)
    (proj : MercatorProjection) (nlevels l : ℕ)
    (h : proj.pixpoint_to_geopoint_checked
      ⟨(proj.geopoint_to_pixpoint p).x +
        1 / (2 : ℝ) ^ ((l : ℤ) - ((nlevels : ℤ) - 1)),
       (proj.geopoint_to_pixpoint p).y⟩ = Except.error ()) :
    metersPerPixelAtE p proj nlevels l = Except.error () := by
  show (match proj.pixpoint_to_geopoint_checked
      ⟨(proj.geopoint_to_pixpoint p).x +
        1 / (2 : ℝ) ^ ((l : ℤ) - ((nlevels : ℤ) - 1)),
       (proj.geopoint_to_pixpoint p).y⟩ with
    | Except.error e => Except.error e
    | Except.ok one_pixel_off =>
      Except.ok (radians 6371 * (|p.lon - one_pixel_off.lon| *
        Real.cos (radians p.lat)) * 1000)) = Except.error ()
  rw [h]

/-- In the counterexample run (point `(0, 178)`, Time Machine bounds
west −180 / east 180, raster 65536², `nlevels = 10`), the scaled offset
`1/scale` at level `l` is `2^(9−l)` pixels. -/
lemma cex_scale (l : ℕ) (h9 : l ≤ 9) :
    1 / (2 : ℝ) ^ ((l : ℤ) - (((10 : ℕ) : ℤ) - 1)) = (2 : ℝ) ^ (9 - l) := by
  rw [one_div, ← zpow_neg, neg_sub]
  rw [show (((10 : ℕ) : ℤ) - 1) - (l : ℤ) = ((9 - l : ℕ) : ℤ) by omega]
  exact zpow_natCast 2 (9 - l)

/-- In the counterexample run, the checked inverse projection of the
pixel point `q` to the right of the projected point recovers latitude 0
exactly and longitude `178 + q·(360/65536)`, fed to the `GeoPoint`
constructor. -/
lemma cex_checked_eval (q : ℝ) :
    (⟨-180, 85, 180, -85, 65536, 65536⟩ :
        MercatorProjection).pixpoint_to_geopoint_checked
      ⟨((⟨-180, 85, 180, -85, 65536, 65536⟩ :
          MercatorProjection).geopoint_to_pixpoint ⟨0, 178⟩).x + q,
       ((⟨-180, 85, 180, -85, 65536, 65536⟩ :
          MercatorProjection).geopoint_to_pixpoint ⟨0, 178⟩).y⟩ =
    GeoPoint.init 0 (178 + q * (45 / 8192)) := by
  have h85 : raw_unproject_lat (raw_project_lat (85 : ℝ)) = 85 :=
    raw_unproject_raw_project 85 (by norm_num) (by norm_num)
  have h85' : raw_unproject_lat (raw_project_lat (-85 : ℝ)) = -85 :=
    raw_unproject_raw_project (-85) (by norm_num) (by norm_num)
  have hne : raw_project_lat (-85 : ℝ) - raw_project_lat (85 : ℝ) ≠ 0 := by
    intro h
    have heq : raw_project_lat (-85 : ℝ) = raw_project_lat 85 :=
      sub_eq_zero.mp h
    have h2 := congrArg raw_unproject_lat heq
    rw [h85', h85] at h2
    norm_num at h2
  show GeoPoint.init
      (raw_unproject_lat (interpolate
        (interpolate (raw_project_lat (0 : ℝ)) (raw_project_lat 85)
          (raw_project_lat (-85)) 0 65536)
        0 65536 (raw_project_lat 85) (raw_project_lat (-85))))
      (interpolate (interpolate (178 : ℝ) (-180) 180 0 65536 + q)
        0 65536 (-180) 180) =
    GeoPoint.init 0 (178 + q * (45 / 8192))
  rw [interpolate_interpolate _ _ _ _ _ hne (by norm_num),
    raw_unproject_raw_project 0 (by norm_num) (by norm_num)]
  congr 1
  unfold interpolate
  norm_num
  ring

/-- In the counterexample run, at every level from 9 down to 1 the
constructor assert passes and the meters-per-pixel value stays at or
below the `1 000 000` bound, so the loop keeps scanning. -/
lemma cex_mppE_pos (l : ℕ) (h1 : 1 ≤ l) (h9 : l ≤ 9) :
    ∃ v, metersPerPixelAtE ⟨0, 178⟩
        ⟨-180, 85, 180, -85, 65536, 65536⟩ 10 l = Except.ok v ∧
      v ≤ 1000000 := by
  have hd1 : (1 : ℝ) ≤ (2 : ℝ) ^ (9 - l) := one_le_pow₀ (by norm_num)
  have hd2 : (2 : ℝ) ^ (9 - l) ≤ 256 := by
    calc (2 : ℝ) ^ (9 - l) ≤ 2 ^ 8 :=
          pow_le_pow_right₀ (by norm_num) (by omega)
      _ = 256 := by norm_num
  have hcond : (-90 : ℝ) ≤ 0 ∧ (0 : ℝ) ≤ 90 ∧
      (-180 : ℝ) ≤ 178 + (2 : ℝ) ^ (9 - l) * (45 / 8192) ∧
      (178 : ℝ) + (2 : ℝ) ^ (9 - l) * (45 / 8192) ≤ 180 :=
    ⟨by norm_num, by norm_num, by nlinarith, by nlinarith⟩
  have hchk : (⟨-180, 85, 180, -85, 65536, 65536⟩ :
      MercatorProjection).pixpoint_to_geopoint_checked
      ⟨((⟨-180, 85, 180, -85, 65536, 65536⟩ :
          MercatorProjection).geopoint_to_pixpoint ⟨0, 178⟩).x +
        1 / (2 : ℝ) ^ ((l : ℤ) - (((10 : ℕ) : ℤ) - 1)),
       ((⟨-180, 85, 180, -85, 65536, 65536⟩ :
          MercatorProjection).geopoint_to_pixpoint ⟨0, 178⟩).y⟩ =
      Except.ok ⟨0, 178 + (2 : ℝ) ^ (9 - l) * (45 / 8192)⟩ := by
    rw [cex_scale l h9, cex_checked_eval]
    unfold GeoPoint.init
    rw [if_pos hcond]
  refine ⟨_, metersPerPixelAtE_eq_of_checked _ _ _ _ _ hchk, ?_⟩
  show radians 6371 * (|(178 : ℝ) -
      (178 + (2 : ℝ) ^ (9 - l) * (45 / 8192))| *
      Real.cos (radians 0)) * 1000 ≤ 1000000
  rw [show (178 : ℝ) - (178 + (2 : ℝ) ^ (9 - l) * (45 / 8192)) =
      -((2 : ℝ) ^ (9 - l) * (45 / 8192)) by ring,
    abs_neg, abs_of_nonneg (by positivity)]
  unfold radians
  rw [show (0 : ℝ) * π / 180 = 0 by ring, Real.cos_zero]
  have hπ1 : π < 3.15 := Real.pi_lt_d2
  have hπ0 : 0 < π := Real.pi_pos
  nlinarith [mul_le_mul_of_nonneg_left hd2 hπ0.le]

/-- In the counterexample run, at level 0 the inverse-projected offset
point has longitude `178 + 512·(360/65536) = 180.8125 > 180`, so the
`GeoPoint` constructor assert fails. -/
lemma cex_mppE_zero :
    metersPerPixelAtE ⟨0, 178⟩ ⟨-180, 85, 180, -85, 65536, 65536⟩ 10 0 =
      Except.error () := by
  apply metersPerPixelAtE_err_of_checked
  rw [cex_scale 0 (by norm_num), cex_checked_eval]
  unfold GeoPoint.init
  rw [if_neg (by norm_num)]

/-- In the counterexample run, the scan walks from level 9 all the way
down to level 0 without stopping. -/
lemma cex_chain : ∀ l, l ≤ 9 →
    determineLevelAuxE ⟨0, 178⟩ ⟨-180, 85, 180, -85, 65536, 65536⟩ 10
      1000000 l =
    determineLevelAuxE ⟨0, 178⟩ ⟨-180, 85, 180, -85, 65536, 65536⟩ 10
      1000000 0 := by
  intro l
  induction l with
  | zero => intro _; rfl
  | succ n ih =>
    intro h9
    obtain ⟨v, hv, hvle⟩ := cex_mppE_pos (n + 1) (by omega) h9
    rw [determineLevelAuxE_succ_ok _ _ _ _ _ _ hv,
      if_neg (not_lt.mpr hvle)]
    exact ih (by omega)

/-- Counterexample to C2 as stated: under the spec's own concrete
scenario (bounds west −180 / north 85 / east 180 / south −85, raster
65536×65536, `nlevels = 10`, `maxMetersPerPixel = 1 000 000`), the valid
point `(0, 178)` makes `determine_level` fail — the scan reaches level
0, where the pixel point one scaled pixel (512 raster pixels, ≈ 2.81°)
to the right inverse-projects to longitude 180.8125, and the `GeoPoint`
constructor assert raises `AssertionError` — so the function does not
always return a `ZoomLevel`. -/
theorem determine_level_assert_counterexample :
    GeoPoint.determine_levelE ⟨0, 178⟩
      ⟨-180, 85, 180, -85, 65536, 65536⟩ 10 1000000 = Except.error () := by
  show determineLevelAuxE ⟨0, 178⟩ ⟨-180, 85, 180, -85, 65536, 65536⟩ 10
    1000000 9 = Except.error ()
  rw [cex_chain 9 le_rfl]
  exact determineLevelAuxE_zero_err _ _ _ _ cex_mppE_zero

end EarthAcrossTime
